import Mathlib

/-
Verification development for the schluter-heat integration.

The Python client in api.py and the update coordinator in the package
init module are embedded as pure Lean functions.  Network interaction is
made explicit: every function that performs an HTTP request takes the
response of that request as an argument of type Except HttpError β, and
returns alongside its result the number of network requests it performed,
so that statements about "no network call is made" are expressible.
Python float temperatures are modelled as rationals, Python dicts keyed
by device id as insertion-ordered association lists, and the two Python
exception classes (SchluterAuthenticationError, SchluterAPIError)
together with ValueError as the three constructors of ApiError.
-/

set_option autoImplicit false

deriving instance DecidableEq for Except

namespace Schluter

/-- Errors raised by the API client: SchluterAuthenticationError,
SchluterAPIError and ValueError from the Python source. -/
inductive ApiError where
  | auth (msg : String)
  | api (msg : String)
  | usage (msg : String)
deriving Repr, DecidableEq

/-- Outcome of a single HTTP request, as seen by the client code.  A
request that is rejected by the backend as unauthenticated (HTTP 401)
surfaces as the transport error HttpError.unauthorized; every other
transport or HTTP failure is HttpError.other. -/
inductive HttpError where
  | unauthorized
  | other
deriving Repr, DecidableEq

/-- The mutable state of the SchluterAPI object: the five private
attributes set in its constructor. -/
structure ApiState where
  session_id : Option String := none
  refresh_token : Option String := none
  access_token : Option String := none
  user_id : Option Nat := none
  account_id : Option Nat := none
deriving Repr, DecidableEq

/-- The SchluterThermostat dataclass. -/
structure SchluterThermostat where
  device_id : Nat
  name : String
  current_temp : Option Rat := none
  target_temp : Option Rat := none
  min_temp : Rat := 5
  max_temp : Rat := 33
  setpoint_mode : Option String := none
  occupancy_mode : Option String := none
  heating : Bool := false
  heating_percent : Int := 0
  air_floor_mode : Option String := none
  gfci_status : Option String := none
  floor_setpoint_pwm : Option Int := none
  temp_display_status : Option String := none
deriving Repr, DecidableEq

/-- The JSON body of a device-attribute (status) response: the fields
that get_thermostat_status reads, each optional because the Python code
accesses them with dict.get. -/
structure StatusBody where
  roomSetpoint : Option Rat := none
  roomSetpointMin : Option Rat := none
  roomSetpointMax : Option Rat := none
  roomTemperatureDisplay_value : Option Rat := none
  roomTemperatureDisplay_status : Option String := none
  outputPercentDisplay_percent : Option Int := none
  setpointMode : Option String := none
  occupancyMode : Option String := none
  airFloorMode : Option String := none
  gfciStatus : Option String := none
  floorSetpointPwm : Option Int := none
deriving Repr, DecidableEq

/-- One entry of the device list returned by the devices endpoint: the
coordinator reads its id and (optionally present) name. -/
structure RawDevice where
  id : Nat
  name : Option String := none
deriving Repr, DecidableEq

/-- The user object optionally present in a login response body. -/
structure LoginUser where
  id : Option Nat := none
  account_id : Option Nat := none
deriving Repr, DecidableEq

/-- The JSON body of a login response: the fields the login method
reads, each optional. -/
structure LoginBody where
  access_token : Option String := none
  session : Option String := none
  user : Option LoginUser := none
  account_id_alt : Option Nat := none
deriving Repr, DecidableEq

/-- SchluterAPI.login: posts the refresh token; on any failure raises an
authentication error; on success stores the refresh token and access
token, stores a session id only when the body carries one, and fills the
user and account ids from the user object when present (falling back to
the top-level account id when the user account id is absent or zero,
mirroring the Python or-chain). -/
def login (s : ApiState) (refresh_token : String)
    (resp : Except HttpError LoginBody) : Except ApiError ApiState :=
  match resp with
  | .error _ => .error (.auth "Login failed")
  | .ok data =>
    let s1 := { s with refresh_token := some refresh_token,
                       access_token := data.access_token }
    let s2 :=
      match data.session with
      | some v => { s1 with session_id := some v }
      | none => s1
    let s3 :=
      match data.user with
      | some u =>
        { s2 with
          user_id := u.id
          account_id :=
            match u.account_id with
            | some a => if a = 0 then data.account_id_alt else some a
            | none => data.account_id_alt }
      | none => s2
    .ok s3

/-- The session-id extraction of SchluterAPI.connect: the if / elif
chain over the keys session, sessionId, session_id of the response body,
first present key wins. -/
def extractSessionId (data : List (String × String)) : Option String :=
  match List.lookup "session" data with
  | some v => some v
  | none =>
    match List.lookup "sessionId" data with
    | some v => some v
    | none => List.lookup "session_id" data

/-- SchluterAPI.connect: requires a stored refresh token (raising an
authentication error before any request otherwise), posts it, extracts
the session id with extractSessionId, treats a missing or empty id and
any transport failure as an authentication error, and on success stores
the session id.  The second component counts network requests made. -/
def connect (s : ApiState) (resp : Except HttpError (List (String × String))) :
    Except ApiError (String × ApiState) × Nat :=
  match s.refresh_token with
  | none => (.error (.auth "Must login first"), 0)
  | some _ =>
    match resp with
    | .error _ => (.error (.auth "Connect failed"), 1)
    | .ok data =>
      match extractSessionId data with
      | none => (.error (.auth "No session ID in connect response"), 1)
      | some v =>
        if v = "" then (.error (.auth "No session ID in connect response"), 1)
        else (.ok (v, { s with session_id := some v }), 1)

/-- SchluterAPI.get_devices: raises an authentication error when no
session is stored; otherwise any request failure becomes a general API
error, and a successful body yields its devices list (empty when the key
is absent, mirroring dict.get with default). -/
def get_devices (s : ApiState) (location_id : Nat)
    (resp : Except HttpError (Option (List RawDevice))) :
    Except ApiError (List RawDevice) :=
  match s.session_id with
  | none => .error (.auth "Not connected. Call connect() first")
  | some _ =>
    match resp with
    | .error _ => .error (.api "Failed to get devices")
    | .ok data => .ok (data.getD [])
  -- location_id is sent as a query parameter; it does not affect the
  -- client-side control flow


/-- The construction of a SchluterThermostat from a status body inside
SchluterAPI.get_thermostat_status. -/
def parseThermostat (device_id : Nat) (data : StatusBody) : SchluterThermostat :=
  { device_id := device_id
    name := "Device " ++ toString device_id
    current_temp := data.roomTemperatureDisplay_value
    target_temp := data.roomSetpoint
    min_temp := data.roomSetpointMin.getD 5
    max_temp := data.roomSetpointMax.getD 33
    setpoint_mode := data.setpointMode
    occupancy_mode := data.occupancyMode
    heating := decide (0 < data.outputPercentDisplay_percent.getD 0)
    heating_percent := data.outputPercentDisplay_percent.getD 0
    air_floor_mode := data.airFloorMode
    gfci_status := data.gfciStatus
    floor_setpoint_pwm := data.floorSetpointPwm
    temp_display_status := data.roomTemperatureDisplay_status }

/-- SchluterAPI.get_thermostat_status: raises an authentication error
when no session is stored; with a session, every request failure
(including a backend rejection as unauthenticated) is caught by the
blanket except clause and re-raised as a general API error; a successful
body is parsed into a SchluterThermostat. -/
def get_thermostat_status (s : ApiState) (device_id : Nat)
    (resp : Except HttpError StatusBody) : Except ApiError SchluterThermostat :=
  match s.session_id with
  | none => .error (.auth "Not connected")
  | some _ =>
    match resp with
    | .error _ => .error (.api "Failed to get thermostat status")
    | .ok data => .ok (parseThermostat device_id data)

/-- SchluterAPI.set_temperature: raises an authentication error without
a session; a transport failure becomes a general API error; on a
successful response it compares the echoed roomSetpoint with the
requested temperature and returns the boolean outcome of that exact
comparison.  Second component counts network requests. -/
def set_temperature (s : ApiState) (device_id : Nat) (temperature : Rat)
    (resp : Except HttpError (Option Rat)) : Except ApiError Bool × Nat :=
  match s.session_id with
  | none => (.error (.auth "Not connected"), 0)
  | some _ =>
    match resp with
    | .error _ => (.error (.api "Failed to set temperature"), 1)
    | .ok echoed =>
      if echoed = some temperature then (.ok true, 1) else (.ok false, 1)

/-- SchluterAPI.set_mode: validates the mode against manual / schedule
before anything else, raising a usage error (ValueError) with no network
request for anything else; then checks the session; a successful PUT
returns true without inspecting the response body (the echoed
setpointMode is ignored). -/
def set_mode (s : ApiState) (device_id : Nat) (mode : String)
    (resp : Except HttpError (Option String)) : Except ApiError Bool × Nat :=
  if mode ∉ (["manual", "schedule"] : List String) then
    (.error (.usage "Invalid mode"), 0)
  else
    match s.session_id with
    | none => (.error (.auth "Not connected"), 0)
    | some _ =>
      match resp with
      | .error _ => (.error (.api "Failed to set mode"), 1)
      | .ok _ => (.ok true, 1)

/-- SchluterAPI.set_occupancy_mode: validates the occupancy against
home / away before anything else, raising a usage error with no network
request otherwise; then checks the session; a successful PUT returns
true without inspecting the response body. -/
def set_occupancy_mode (s : ApiState) (device_id : Nat) (occupancy : String)
    (resp : Except HttpError (Option String)) : Except ApiError Bool × Nat :=
  if occupancy ∉ (["home", "away"] : List String) then
    (.error (.usage "Invalid occupancy"), 0)
  else
    match s.session_id with
    | none => (.error (.auth "Not connected"), 0)
    | some _ =>
      match resp with
      | .error _ => (.error (.api "Failed to set occupancy"), 1)
      | .ok _ => (.ok true, 1)

/-- SchluterAPI.logout: with no stored session it returns True at once;
with a session it clears the session id and the access token locally and
returns True.  No other attribute is touched. -/
def logout (s : ApiState) : Bool × ApiState :=
  match s.session_id with
  | none => (true, s)
  | some _ => (true, { s with session_id := none, access_token := none })

/-- Insert into a Python-dict style association list: overwriting an
existing key keeps its position, a new key is appended at the end. -/
def dictInsert {α : Type} (d : List (Nat × α)) (k : Nat) (v : α) : List (Nat × α) :=
  match d with
  | [] => [(k, v)]
  | (k2, v2) :: rest =>
    if k2 = k then (k2, v) :: rest else (k2, v2) :: dictInsert rest k v

/-- The network responses available to one execution of the cycle body
at one recursion level of the coordinator: the devices response, the
per-device status responses, and the login response used if recovery is
attempted at this level. -/
structure CycleEnv where
  devicesResp : Except HttpError (Option (List RawDevice))
  statusResp : Nat → Except HttpError StatusBody
  loginResp : Except HttpError LoginBody

/-- Result of one execution of the try-block body of
SchluterDataUpdateCoordinator._async_update_data: the data or the
exception that escaped, the coordinator device directory afterwards, how
many device-list fetches were made, and which device ids had a status
fetch attempted, in order. -/
structure CycleBodyResult where
  result : Except ApiError (List (Nat × SchluterThermostat))
  devices : List (Nat × RawDevice)
  discoveries : Nat
  statusCalls : List Nat
deriving Repr, DecidableEq

/-- The per-device status loop of the coordinator: iterate the device
directory in order; a successful status is renamed from the directory
entry (with the Device fallback) and added to the result dict; a
SchluterAPIError is logged and skipped; any other exception aborts the
loop (and discards the partial dict).  The second component records the
device ids whose status fetch was attempted, in order. -/
def statusLoop (st : Nat → Except ApiError SchluterThermostat) :
    List (Nat × RawDevice) →
    Except ApiError (List (Nat × SchluterThermostat)) × List Nat
  | [] => (.ok [], [])
  | (device_id, dev) :: rest =>
    match st device_id with
    | .ok t =>
      match statusLoop st rest with
      | (.ok d, calls) =>
        (.ok ((device_id,
          { t with name := dev.name.getD ("Device " ++ toString device_id) }) :: d),
         device_id :: calls)
      | (.error e, calls) => (.error e, device_id :: calls)
    | .error (.api _) =>
      match statusLoop st rest with
      | (r, calls) => (r, device_id :: calls)
    | .error e => (.error e, [device_id])

/-- The try-block body of the coordinator update: when the device
directory is empty, fetch the device list (aborting the body on failure,
with the directory untouched) and index it by device id; then run the
status loop over the directory. -/
def runCycleBody (devices : List (Nat × RawDevice)) (api : ApiState)
    (location_id : Nat) (env : CycleEnv) : CycleBodyResult :=
  if devices.isEmpty then
    match get_devices api location_id env.devicesResp with
    | .error e => ⟨.error e, devices, 1, []⟩
    | .ok device_list =>
      let devices2 := device_list.foldl (fun d dev => dictInsert d dev.id dev) devices
      let r := statusLoop (fun id => get_thermostat_status api id (env.statusResp id))
        devices2
      ⟨r.1, devices2, 1, r.2⟩
  else
    let r := statusLoop (fun id => get_thermostat_status api id (env.statusResp id))
      devices
    ⟨r.1, devices, 0, r.2⟩

/-- The ways one call of the coordinator update terminates abnormally:
the UpdateFailed raised after triggering the reauth flow, the
UpdateFailed raised when the recovery path failed for any other reason,
the generic UpdateFailed of the blanket except clause, and exhaustion of
the recursion fuel of the embedding (the Python recursion is unbounded,
so the embedding bounds the depth explicitly). -/
inductive UpdateError where
  | reauthRequired
  | connectionFailed
  | updateFailed
  | outOfFuel
deriving Repr, DecidableEq

/-- Observable outcome of one (outer) call of the coordinator update:
the returned data or raised failure, the device directory and api state
afterwards, the number of api.login calls performed, the number of
device-list fetches, the status fetches attempted, and the number of
reauth flows started. -/
structure CoordOutcome where
  result : Except UpdateError (List (Nat × SchluterThermostat))
  devices : List (Nat × RawDevice)
  api : ApiState
  logins : Nat
  discoveries : Nat
  statusCalls : List Nat
  reauthFlows : Nat
deriving Repr, DecidableEq

/-- SchluterDataUpdateCoordinator._async_update_data.  Runs the cycle
body; on a SchluterAuthenticationError it re-logs in with the refresh
token stored in the config entry and, when the re-login succeeds, calls
itself recursively; when the re-login raises an authentication error it
starts the reauth flow and raises UpdateFailed; an UpdateFailed escaping
the recursive call is caught by the blanket clause of the recovery path
and re-raised as a connection failure; every other exception from the
body becomes a generic UpdateFailed.  The first Nat is recursion fuel
(the Python recursion has no bound), the second the recursion depth used
to index the per-level network environments. -/
def _async_update_data (location_id : Nat) (conf_refresh : String)
    (envs : Nat → CycleEnv) :
    Nat → Nat → List (Nat × RawDevice) → ApiState → CoordOutcome
  | 0, _, devices, api =>
    ⟨.error .outOfFuel, devices, api, 0, 0, [], 0⟩
  | fuel + 1, lvl, devices, api =>
    let env := envs lvl
    let b := runCycleBody devices api location_id env
    match b.result with
    | .ok data =>
      ⟨.ok data, b.devices, api, 0, b.discoveries, b.statusCalls, 0⟩
    | .error (.auth _) =>
      match login api conf_refresh env.loginResp with
      | .ok api2 =>
        let r := _async_update_data location_id conf_refresh envs fuel (lvl + 1)
          b.devices api2
        ⟨match r.result with
          | .ok d => .ok d
          | .error _ => .error .connectionFailed,
         r.devices, r.api, r.logins + 1, b.discoveries + r.discoveries,
         b.statusCalls ++ r.statusCalls, r.reauthFlows⟩
      | .error (.auth _) =>
        ⟨.error .reauthRequired, b.devices, api, 1, b.discoveries, b.statusCalls, 1⟩
      | .error _ =>
        ⟨.error .connectionFailed, b.devices, api, 1, b.discoveries, b.statusCalls, 0⟩
    | .error _ =>
      ⟨.error .updateFailed, b.devices, api, 0, b.discoveries, b.statusCalls, 0⟩

/-- True exactly on a successful client-call result. -/
def exceptOk {α : Type} : Except ApiError α → Bool
  | .ok _ => true
  | .error _ => false

/-- True exactly on a SchluterAPIError result. -/
def exceptApiErr {α : Type} : Except ApiError α → Bool
  | .error (.api _) => true
  | _ => false

/-- An api state with an established session, as after a successful
login and connect. -/
def apiConnected : ApiState :=
  { session_id := some "sid", refresh_token := some "tok",
    access_token := some "atk", user_id := some 5, account_id := some 9 }

/-- Environment in which the session is missing, every login request
succeeds with a body that carries no session key, and status requests
succeed: the body of the cycle keeps failing with an authentication
error while every re-login succeeds. -/
def envLoginLoop : CycleEnv :=
  { devicesResp := .ok none, statusResp := fun _ => .ok {}, loginResp := .ok {} }

/-- Environment in which every device-status request is rejected by the
backend as unauthenticated. -/
def envStatusRejected : CycleEnv :=
  { devicesResp := .ok none, statusResp := fun _ => .error .unauthorized,
    loginResp := .ok {} }

/-- Environment in which the device-list request succeeds with an empty
device list. -/
def envEmptyDiscovery : CycleEnv :=
  { devicesResp := .ok (some []), statusResp := fun _ => .ok {}, loginResp := .ok {} }

/-- Environment in which the session is missing and the login request is
rejected, so recovery fails with an authentication error. -/
def envLoginRejected : CycleEnv :=
  { devicesResp := .ok none, statusResp := fun _ => .ok {},
    loginResp := .error .unauthorized }

/-- A successful result is exactly an ok constructor. -/
theorem exceptOk_iff {α : Type} (r : Except ApiError α) :
    exceptOk r = true ↔ ∃ a, r = .ok a := by
  cases r with
  | ok a => simp [exceptOk]
  | error e => simp [exceptOk]

/-- A general API failure is exactly an api-error constructor. -/
theorem exceptApiErr_iff {α : Type} (r : Except ApiError α) :
    exceptApiErr r = true ↔ ∃ m, r = .error (.api m) := by
  cases r with
  | ok a => simp [exceptApiErr]
  | error e => cases e <;> simp [exceptApiErr]

/-- A general API failure is not a success. -/
theorem exceptOk_eq_false_of_apiErr {α : Type} (r : Except ApiError α)
    (h : exceptApiErr r = true) : exceptOk r = false := by
  obtain ⟨m, hm⟩ := (exceptApiErr_iff r).mp h
  simp [hm, exceptOk]

/-- Characterization of the status loop when no device fetch raises an
authentication or usage error: the loop returns a dict, attempts every
device exactly once in directory order, and the keys of the dict are
exactly the devices whose fetch succeeded, in order. -/
theorem statusLoop_spec (st : Nat → Except ApiError SchluterThermostat)
    (devs : List (Nat × RawDevice))
    (h : ∀ id ∈ devs.map Prod.fst, exceptOk (st id) = true ∨ exceptApiErr (st id) = true) :
    ∃ d, statusLoop st devs = (.ok d, devs.map Prod.fst) ∧
      d.map Prod.fst = (devs.map Prod.fst).filter (fun id => exceptOk (st id)) := by
  induction devs with
  | nil => exact ⟨[], rfl, rfl⟩
  | cons p rest ih =>
    obtain ⟨i, dev⟩ := p
    have hi := h i (by simp)
    have hrest : ∀ id ∈ rest.map Prod.fst,
        exceptOk (st id) = true ∨ exceptApiErr (st id) = true :=
      fun id hid => h id (by simp [hid])
    obtain ⟨d, hd, hkeys⟩ := ih hrest
    rcases hi with hok | herr
    · obtain ⟨t, ht⟩ := (exceptOk_iff (st i)).mp hok
      refine ⟨(i, { t with name := dev.name.getD ("Device " ++ toString i) }) :: d,
        ?_, ?_⟩
      · simp [statusLoop, ht, hd]
      · simp [List.filter, hok, hkeys]
    · obtain ⟨m, hm⟩ := (exceptApiErr_iff (st i)).mp herr
      have hnotok : exceptOk (st i) = false := exceptOk_eq_false_of_apiErr (st i) herr
      refine ⟨d, ?_, ?_⟩
      · simp [statusLoop, hm, hd]
      · simp [List.filter, hnotok, hkeys]

/-- Inserting into a dict never yields the empty dict. -/
theorem dictInsert_ne_nil {α : Type} (d : List (Nat × α)) (k : Nat) (v : α) :
    dictInsert d k v ≠ [] := by
  cases d with
  | nil => simp [dictInsert]
  | cons p rest =>
    obtain ⟨k2, v2⟩ := p
    simp only [dictInsert]
    split <;> simp

/-- Folding dict insertions over a non-empty device list starting from
any dict yields a non-empty dict. -/
theorem foldl_dictInsert_ne_nil (l : List RawDevice) (d : List (Nat × RawDevice))
    (h : l ≠ [] ∨ d ≠ []) :
    l.foldl (fun d2 dev => dictInsert d2 dev.id dev) d ≠ [] := by
  induction l generalizing d with
  | nil =>
    rcases h with h | h
    · exact absurd rfl h
    · simpa using h
  | cons dev rest ih =>
    simp only [List.foldl_cons]
    exact ih (dictInsert d dev.id dev) (Or.inr (dictInsert_ne_nil d dev.id dev))

/-- C5: with a session established and a response received,
set_temperature returns true exactly when the echoed roomSetpoint equals
the requested temperature, and returns false (rather than raising) in
every other case, in particular whenever the echoed value differs. -/
theorem set_temperature_echo_iff (s : ApiState) (sid : String) (id : Nat) (t : Rat)
    (echoed : Option Rat) (hs : s.session_id = some sid) :
    ((set_temperature s id t (.ok echoed)).1 = .ok true ↔ echoed = some t) ∧
    ((set_temperature s id t (.ok echoed)).1 = .ok false ↔ echoed ≠ some t) := by
  by_cases h : echoed = some t <;> simp [set_temperature, hs, h]

/-- Witness for C5: requesting 22 degrees while the backend echoes 21
makes set_temperature return false. -/
theorem set_temperature_echo_iff_witness :
    (set_temperature apiConnected 1 22 (.ok (some 21))).1 = .ok false :=
  (set_temperature_echo_iff apiConnected "sid" 1 22 (some 21) rfl).2.mpr (by decide)

/-- C6 counterexample: set_mode returns true on a successful response
whose echoed setpointMode differs from the requested mode, so not every
attribute-write operation verifies the echoed value. -/
theorem write_echo_verification_cex :
    (set_mode apiConnected 1 "manual" (.ok (some "schedule"))).1 = .ok true ∧
    ("schedule" : String) ≠ "manual" := by decide

/-- C6 (amended): only set_temperature verifies the echoed value,
returning false on a mismatch; set_mode and set_occupancy_mode return
true on any successful response without inspecting the echoed value. -/
theorem write_echo_verification (s : ApiState) (sid : String) (id : Nat) (t : Rat)
    (echoedT : Option Rat) (mode occ : String) (echoedM echoedO : Option String)
    (hs : s.session_id = some sid)
    (hm : mode ∈ (["manual", "schedule"] : List String))
    (ho : occ ∈ (["home", "away"] : List String))
    (hne : echoedT ≠ some t) :
    (set_temperature s id t (.ok echoedT)).1 = .ok false ∧
    (set_mode s id mode (.ok echoedM)).1 = .ok true ∧
    (set_occupancy_mode s id occ (.ok echoedO)).1 = .ok true := by
  refine ⟨?_, ?_, ?_⟩
  · simp [set_temperature, hs, hne]
  · simp [set_mode, hs, hm]
  · simp [set_occupancy_mode, hs, ho]

/-- Witness for the amended C6 at concrete inputs. -/
theorem write_echo_verification_witness :
    (set_temperature apiConnected 2 22 (.ok (some 20))).1 = .ok false ∧
    (set_mode apiConnected 2 "schedule" (.ok (some "manual"))).1 = .ok true ∧
    (set_occupancy_mode apiConnected 2 "home" (.ok (some "away"))).1 = .ok true :=
  write_echo_verification apiConnected "sid" 2 22 (some 20) "schedule" "home"
    (some "manual") (some "away") rfl (by decide) (by decide) (by decide)

/-- C7: a mode outside manual / schedule or an occupancy outside
home / away is rejected with a usage error and zero network requests,
regardless of the client state and of what the network would answer. -/
theorem invalid_args_rejected (s : ApiState) (id : Nat) (mode occ : String)
    (respM respO : Except HttpError (Option String))
    (hm : mode ∉ (["manual", "schedule"] : List String))
    (ho : occ ∉ (["home", "away"] : List String)) :
    set_mode s id mode respM = (.error (.usage "Invalid mode"), 0) ∧
    set_occupancy_mode s id occ respO = (.error (.usage "Invalid occupancy"), 0) := by
  constructor
  · simp [set_mode, hm]
  · simp [set_occupancy_mode, ho]

/-- Witness for C7: the eco mode and vacation occupancy are rejected
before any network request. -/
theorem invalid_args_rejected_witness :
    set_mode apiConnected 1 "eco" (.ok none) = (.error (.usage "Invalid mode"), 0) ∧
    set_occupancy_mode apiConnected 1 "vacation" (.ok none)
      = (.error (.usage "Invalid occupancy"), 0) :=
  invalid_args_rejected apiConnected 1 "eco" "vacation" (.ok none) (.ok none)
    (by decide) (by decide)

/-- C8: connect fails with an authentication error and no request when
no refresh token is stored; with a stored token, a transport failure is
an authentication error; the session id is extracted by trying the keys
session, sessionId, session_id in that order with the first present key
winning; a missing id is an authentication error; a present, non-empty
id is returned and stored as the session. -/
theorem connect_behaviour (s s2 : ApiState) (rt : String)
    (data : List (String × String)) (e : HttpError) (v : String)
    (h0 : s.refresh_token = none) (h1 : s2.refresh_token = some rt) :
    (∀ resp, connect s resp = (.error (.auth "Must login first"), 0)) ∧
    connect s2 (.error e) = (.error (.auth "Connect failed"), 1) ∧
    (extractSessionId data = none →
      connect s2 (.ok data) = (.error (.auth "No session ID in connect response"), 1)) ∧
    (extractSessionId data = some v → v ≠ "" →
      connect s2 (.ok data) = (.ok (v, { s2 with session_id := some v }), 1)) ∧
    (List.lookup "session" data = some v → extractSessionId data = some v) ∧
    (List.lookup "session" data = none → List.lookup "sessionId" data = some v →
      extractSessionId data = some v) ∧
    (List.lookup "session" data = none → List.lookup "sessionId" data = none →
      extractSessionId data = List.lookup "session_id" data) := by
  refine ⟨fun resp => by simp [connect, h0], by simp [connect, h1], ?_, ?_, ?_, ?_, ?_⟩
  · intro hx
    simp [connect, h1, hx]
  · intro hx hv
    simp [connect, h1, hx, hv]
  · intro hx
    simp [extractSessionId, hx]
  · intro hx hy
    simp [extractSessionId, hx, hy]
  · intro hx hy
    simp [extractSessionId, hx, hy]

/-- Witness for C8: with both sessionId and session_id present, the
sessionId value wins and becomes the stored session. -/
theorem connect_behaviour_witness :
    connect apiConnected (.ok [("sessionId", "X"), ("session_id", "Y")])
      = (.ok ("X", { apiConnected with session_id := some "X" }), 1) :=
  ((connect_behaviour ⟨none, none, none, none, none⟩ apiConnected "tok"
      [("sessionId", "X"), ("session_id", "Y")] .other "X" rfl rfl).2.2.2.1)
    (by decide) (by decide)

/-- C9: invalidating an established session clears exactly the session
id and the access token, and preserves the refresh token and the user
and account identifiers, so a later re-login can reuse the token. -/
theorem logout_frame (s : ApiState) (h : s.session_id ≠ none) :
    (logout s).2.refresh_token = s.refresh_token ∧
    (logout s).2.user_id = s.user_id ∧
    (logout s).2.account_id = s.account_id ∧
    (logout s).2.session_id = none ∧
    (logout s).2.access_token = none ∧
    (logout s).1 = true := by
  match hs : s.session_id with
  | none => exact absurd hs h
  | some sid => simp [logout, hs]

/-- Witness for C9 on a fully populated connected state. -/
theorem logout_frame_witness :
    (logout apiConnected).2.refresh_token = apiConnected.refresh_token ∧
    (logout apiConnected).2.user_id = apiConnected.user_id ∧
    (logout apiConnected).2.account_id = apiConnected.account_id ∧
    (logout apiConnected).2.session_id = none ∧
    (logout apiConnected).2.access_token = none ∧
    (logout apiConnected).1 = true :=
  logout_frame apiConnected (by decide)

/-- C10: argument validation precedes the session check in set_mode and
set_occupancy_mode: an invalid value yields the usage error in every
state, including states with no session, while a valid value with no
session yields the authentication error, so an invalid argument never
surfaces as an authentication failure. -/
theorem validation_precedes_session (id : Nat) (mode occ m o : String)
    (respM respO : Except HttpError (Option String)) (s1 s2 : ApiState)
    (hm : mode ∉ (["manual", "schedule"] : List String))
    (ho : occ ∉ (["home", "away"] : List String))
    (hs : s2.session_id = none)
    (hvm : m ∈ (["manual", "schedule"] : List String))
    (hvo : o ∈ (["home", "away"] : List String)) :
    set_mode s1 id mode respM = (.error (.usage "Invalid mode"), 0) ∧
    set_occupancy_mode s1 id occ respO = (.error (.usage "Invalid occupancy"), 0) ∧
    set_mode s2 id m respM = (.error (.auth "Not connected"), 0) ∧
    set_occupancy_mode s2 id o respO = (.error (.auth "Not connected"), 0) := by
  refine ⟨by simp [set_mode, hm], by simp [set_occupancy_mode, ho], ?_, ?_⟩
  · simp [set_mode, hvm, hs]
  · simp [set_occupancy_mode, hvo, hs]

/-- Witness for C10: eco is a usage error even with no session, while
manual with no session is an authentication error. -/
theorem validation_precedes_session_witness :
    set_mode ⟨none, some "tok", none, none, none⟩ 1 "eco" (.ok none)
      = (.error (.usage "Invalid mode"), 0) ∧
    set_occupancy_mode ⟨none, some "tok", none, none, none⟩ 1 "vacation" (.ok none)
      = (.error (.usage "Invalid occupancy"), 0) ∧
    set_mode ⟨none, some "tok", none, none, none⟩ 1 "manual" (.ok none)
      = (.error (.auth "Not connected"), 0) ∧
    set_occupancy_mode ⟨none, some "tok", none, none, none⟩ 1 "away" (.ok none)
      = (.error (.auth "Not connected"), 0) :=
  validation_precedes_session 1 "eco" "vacation" "manual" "away" (.ok none) (.ok none)
    ⟨none, some "tok", none, none, none⟩ ⟨none, some "tok", none, none, none⟩
    (by decide) (by decide) rfl (by decide) (by decide)

/-- C2: over a known device directory, when every per-device status
fetch either succeeds or fails with a general API failure, the cycle
body publishes a dict whose keys are exactly the devices with a
successful fetch (the failing ones are omitted, the cycle is not
aborted), and every device is attempted exactly once, in order. -/
theorem poll_result_keys (devs : List (Nat × RawDevice)) (api : ApiState)
    (location_id : Nat) (env : CycleEnv) (hne : devs ≠ [])
    (h : ∀ id ∈ devs.map Prod.fst,
      exceptOk (get_thermostat_status api id (env.statusResp id)) = true ∨
      exceptApiErr (get_thermostat_status api id (env.statusResp id)) = true) :
    ∃ d, (runCycleBody devs api location_id env).result = .ok d ∧
      d.map Prod.fst = (devs.map Prod.fst).filter
        (fun id => exceptOk (get_thermostat_status api id (env.statusResp id))) ∧
      (runCycleBody devs api location_id env).statusCalls = devs.map Prod.fst := by
  obtain ⟨d, hd, hkeys⟩ := statusLoop_spec
    (fun id => get_thermostat_status api id (env.statusResp id)) devs h
  have hempty : devs.isEmpty = false := by
    cases devs
    · exact absurd rfl hne
    · rfl
  exact ⟨d, by simp [runCycleBody, hempty, hd], hkeys,
    by simp [runCycleBody, hempty, hd]⟩

/-- Directory and environment for the C2 witness: device 1 responds,
device 2 fails with a transport error (a general API failure). -/
def envOneDeviceDown : CycleEnv :=
  { devicesResp := .ok none
    statusResp := fun d => if d = 1 then .ok {} else .error .other
    loginResp := .ok {} }

/-- Witness for C2: of the devices 1 and 2, the failing device 2 is
omitted and the result keys are exactly the singleton 1. -/
theorem poll_result_keys_witness :
    ∃ d, (runCycleBody [(1, ⟨1, some "Kitchen"⟩), (2, ⟨2, none⟩)] apiConnected 7
        envOneDeviceDown).result = .ok d ∧
      d.map Prod.fst = ([1, 2].filter
        (fun id => exceptOk (get_thermostat_status apiConnected id
          (envOneDeviceDown.statusResp id)))) ∧
      (runCycleBody [(1, ⟨1, some "Kitchen"⟩), (2, ⟨2, none⟩)] apiConnected 7
        envOneDeviceDown).statusCalls = [1, 2] :=
  poll_result_keys [(1, ⟨1, some "Kitchen"⟩), (2, ⟨2, none⟩)] apiConnected 7
    envOneDeviceDown (by decide) (by decide)

/-- C3 counterexample: with a session established, a device-status call
rejected by the backend as unauthenticated is classified as a general
API failure, not an authentication failure, so the coordinator omits the
device (publishing an empty dict) and performs no re-login at all. -/
theorem status_auth_rejection_cex :
    get_thermostat_status apiConnected 1 (.error .unauthorized)
      = .error (.api "Failed to get thermostat status") ∧
    (_async_update_data 7 "tok" (fun _ => envStatusRejected) 2 0 [(1, ⟨1, none⟩)]
      apiConnected).result = .ok [] ∧
    (_async_update_data 7 "tok" (fun _ => envStatusRejected) 2 0 [(1, ⟨1, none⟩)]
      apiConnected).logins = 0 := by decide

/-- C3 (amended): with a session established, every failing
device-status request, including a backend rejection as unauthenticated,
is classified as a general API failure; the coordinator therefore treats
it as a per-device failure, publishes a dict without the failing devices
(empty when all fail) and performs no re-login; the re-login recovery
path is reachable only through authentication failures such as a missing
session. -/
theorem status_auth_rejection_handling (s : ApiState) (sid : String)
    (hs : s.session_id = some sid) (id : Nat) (e : HttpError)
    (location_id : Nat) (tok : String) (envs : Nat → CycleEnv) (fuel lvl : Nat)
    (devs : List (Nat × RawDevice)) (hne : devs ≠ [])
    (hall : ∀ d2 ∈ devs.map Prod.fst,
      exceptApiErr (get_thermostat_status s d2 ((envs lvl).statusResp d2)) = true) :
    get_thermostat_status s id (.error e)
      = .error (.api "Failed to get thermostat status") ∧
    (_async_update_data location_id tok envs (fuel + 1) lvl devs s).result = .ok [] ∧
    (_async_update_data location_id tok envs (fuel + 1) lvl devs s).logins = 0 := by
  have h1 : get_thermostat_status s id (.error e)
      = .error (.api "Failed to get thermostat status") := by
    simp [get_thermostat_status, hs]
  obtain ⟨d, hd, hkeys⟩ := statusLoop_spec
    (fun d2 => get_thermostat_status s d2 ((envs lvl).statusResp d2)) devs
    (fun d2 hd2 => Or.inr (hall d2 hd2))
  have hdnil : d = [] := by
    have hmap : d.map Prod.fst = [] := by
      rw [hkeys]
      refine List.filter_eq_nil_iff.mpr ?_
      intro a ha
      simp [exceptOk_eq_false_of_apiErr _ (hall a ha)]
    exact List.map_eq_nil_iff.mp hmap
  subst hdnil
  have hempty : devs.isEmpty = false := by
    cases devs
    · exact absurd rfl hne
    · rfl
  have hbody : runCycleBody devs s location_id (envs lvl)
      = ⟨.ok [], devs, 0, devs.map Prod.fst⟩ := by
    simp [runCycleBody, hempty, hd]
  exact ⟨h1, by simp [_async_update_data, hbody], by simp [_async_update_data, hbody]⟩

/-- Witness for the amended C3: one device, every status request
rejected as unauthenticated, session established. -/
theorem status_auth_rejection_handling_witness :
    get_thermostat_status apiConnected 1 (.error .unauthorized)
      = .error (.api "Failed to get thermostat status") ∧
    (_async_update_data 7 "tok" (fun _ => envStatusRejected) 1 0 [(1, ⟨1, none⟩)]
      apiConnected).result = .ok [] ∧
    (_async_update_data 7 "tok" (fun _ => envStatusRejected) 1 0 [(1, ⟨1, none⟩)]
      apiConnected).logins = 0 :=
  status_auth_rejection_handling apiConnected "sid" rfl 1 .unauthorized 7 "tok"
    (fun _ => envStatusRejected) 0 0 [(1, ⟨1, none⟩)] (by decide) (by decide)

/-- C4 counterexample: a discovery that succeeds with an empty device
list leaves the directory empty, so the next cycle fetches the device
list again: two discoveries in one coordinator lifetime with no failure
in between, refuting at most one discovery per lifetime. -/
theorem discovery_at_most_once_cex :
    (_async_update_data 7 "tok" (fun _ => envEmptyDiscovery) 1 0 [] apiConnected).result
      = .ok [] ∧
    (_async_update_data 7 "tok" (fun _ => envEmptyDiscovery) 1 0 [] apiConnected).discoveries
      = 1 ∧
    (_async_update_data 7 "tok" (fun _ => envEmptyDiscovery) 1 0
      (_async_update_data 7 "tok" (fun _ => envEmptyDiscovery) 1 0 [] apiConnected).devices
      apiConnected).discoveries = 1 := by decide

/-- Environment whose device-list request fails at the transport. -/
def envDiscoveryFail : CycleEnv :=
  { devicesResp := .error .other, statusResp := fun _ => .ok {}, loginResp := .ok {} }

/-- C4 (amended): a cycle that starts with a non-empty directory does
not fetch the device list; a cycle that starts empty fetches it exactly
once and, on success, replaces the directory in one step with the list
indexed by device id (non-empty when the list is); on failure the
directory stays empty, no status is fetched, the whole cycle aborts with
the failure reported upward, and the next cycle fetches again. -/
theorem discovery_characterization (devices : List (Nat × RawDevice)) (api : ApiState)
    (location_id : Nat) (env : CycleEnv) :
    (devices ≠ [] →
      (runCycleBody devices api location_id env).discoveries = 0 ∧
      (runCycleBody devices api location_id env).devices = devices) ∧
    (∀ l, devices = [] → get_devices api location_id env.devicesResp = .ok l →
      (runCycleBody devices api location_id env).devices =
        l.foldl (fun d dev => dictInsert d dev.id dev) [] ∧
      (runCycleBody devices api location_id env).discoveries = 1 ∧
      (l ≠ [] → (runCycleBody devices api location_id env).devices ≠ [])) ∧
    (∀ e, devices = [] → get_devices api location_id env.devicesResp = .error e →
      runCycleBody devices api location_id env = ⟨.error e, [], 1, []⟩) ∧
    (∀ m tok envs fuel lvl, devices = [] → envs lvl = env →
      get_devices api location_id env.devicesResp = .error (.api m) →
      (_async_update_data location_id tok envs (fuel + 1) lvl devices api).result =
        .error .updateFailed ∧
      (_async_update_data location_id tok envs (fuel + 1) lvl devices api).devices = []) ∧
    (∀ e env2, devices = [] → get_devices api location_id env.devicesResp = .error e →
      (runCycleBody (runCycleBody devices api location_id env).devices api location_id
        env2).discoveries = 1) := by
  refine ⟨?_, ?_, ?_, ?_, ?_⟩
  · intro hne
    have hempty : devices.isEmpty = false := by
      cases devices
      · exact absurd rfl hne
      · rfl
    constructor <;> simp [runCycleBody, hempty]
  · intro l hdev hok
    subst hdev
    refine ⟨by simp [runCycleBody, hok], by simp [runCycleBody, hok], ?_⟩
    intro hl
    have hdeq : (runCycleBody [] api location_id env).devices =
        l.foldl (fun d dev => dictInsert d dev.id dev) [] := by
      simp [runCycleBody, hok]
    rw [hdeq]
    exact foldl_dictInsert_ne_nil l [] (Or.inl hl)
  · intro e hdev herr
    subst hdev
    simp [runCycleBody, herr]
  · intro m tok envs fuel lvl hdev henv herr
    subst hdev
    have hbody : runCycleBody [] api location_id (envs lvl)
        = ⟨.error (.api m), [], 1, []⟩ := by
      rw [henv]
      simp [runCycleBody, herr]
    constructor <;> simp [_async_update_data, hbody]
  · intro e env2 hdev herr
    subst hdev
    have hbody : runCycleBody [] api location_id env = ⟨.error e, [], 1, []⟩ := by
      simp [runCycleBody, herr]
    rw [hbody]
    cases hgd : get_devices api location_id env2.devicesResp <;>
      simp [runCycleBody, hgd]

/-- Witness for the amended C4: a failed discovery aborts the cycle with
the generic upward failure and leaves the directory empty. -/
theorem discovery_characterization_witness :
    (_async_update_data 7 "tok" (fun _ => envDiscoveryFail) 1 0 [] apiConnected).result
      = .error .updateFailed ∧
    (_async_update_data 7 "tok" (fun _ => envDiscoveryFail) 1 0 [] apiConnected).devices
      = [] :=
  (discovery_characterization [] apiConnected 7 envDiscoveryFail).2.2.2.1
    "Failed to get devices" "tok" (fun _ => envDiscoveryFail) 0 0 rfl rfl (by decide)

/-- C1 counterexample: with the session missing and every re-login
request succeeding with a body that carries no session key, one poll
invocation performs two re-login attempts (and would go on: the Python
recursion has no bound) while never surfacing the terminal
reauthentication-required condition, refuting the at-most-one recovery
attempt per cycle. -/
theorem at_most_one_relogin_cex :
    (_async_update_data 7 "tok" (fun _ => envLoginLoop) 2 0 [(1, ⟨1, none⟩)]
      { refresh_token := some "tok" }).logins = 2 ∧
    (_async_update_data 7 "tok" (fun _ => envLoginLoop) 2 0 [(1, ⟨1, none⟩)]
      { refresh_token := some "tok" }).reauthFlows = 0 := by decide

/-- C1 (amended): when the cycle body succeeds no re-login happens; when
it fails with an authentication error the coordinator performs exactly
one re-login at that level, surfacing the terminal
reauthentication-required condition precisely when that re-login itself
fails with an authentication error, and otherwise re-running the whole
cycle recursively, where each recursive run may again re-login, so the
number of authentication rounds in one poll is not bounded by two. -/
theorem relogin_recursion (location_id : Nat) (tok : String) (envs : Nat → CycleEnv)
    (fuel lvl : Nat) (devices : List (Nat × RawDevice)) (api : ApiState)
    (b : CycleBodyResult) (hb : runCycleBody devices api location_id (envs lvl) = b) :
    (∀ data, b.result = .ok data →
      _async_update_data location_id tok envs (fuel + 1) lvl devices api =
        ⟨.ok data, b.devices, api, 0, b.discoveries, b.statusCalls, 0⟩) ∧
    (∀ m, b.result = .error (.auth m) →
      (∀ m2, login api tok (envs lvl).loginResp = .error (.auth m2) →
        _async_update_data location_id tok envs (fuel + 1) lvl devices api =
          ⟨.error .reauthRequired, b.devices, api, 1, b.discoveries, b.statusCalls, 1⟩) ∧
      (∀ api2, login api tok (envs lvl).loginResp = .ok api2 →
        (_async_update_data location_id tok envs (fuel + 1) lvl devices api).logins =
          (_async_update_data location_id tok envs fuel (lvl + 1) b.devices api2).logins
            + 1 ∧
        (_async_update_data location_id tok envs (fuel + 1) lvl devices api).reauthFlows =
          (_async_update_data location_id tok envs fuel (lvl + 1) b.devices
            api2).reauthFlows)) := by
  constructor
  · intro data hdata
    simp [_async_update_data, hb, hdata]
  · intro m hm
    constructor
    · intro m2 hl
      simp [_async_update_data, hb, hm, hl]
    · intro api2 hl
      constructor <;> simp [_async_update_data, hb, hm, hl]

/-- Witness for the amended C1: the body fails for want of a session and
the re-login is rejected, so the single recovery attempt ends in the
terminal reauthentication-required condition with exactly one login. -/
theorem relogin_recursion_witness :
    _async_update_data 7 "tok" (fun _ => envLoginRejected) 1 0 [(1, ⟨1, none⟩)]
      { refresh_token := some "tok" } =
      ⟨.error .reauthRequired, [(1, ⟨1, none⟩)], { refresh_token := some "tok" },
       1, 0, [1], 1⟩ :=
  ((relogin_recursion 7 "tok" (fun _ => envLoginRejected) 0 0 [(1, ⟨1, none⟩)]
      { refresh_token := some "tok" }
      ⟨.error (.auth "Not connected"), [(1, ⟨1, none⟩)], 0, [1]⟩ (by decide)).2
    "Not connected" rfl).1 "Login failed" rfl

end Schluter
